import Mathlib

/-
Verification development for the workspace++ core (ws.cpp and wsdb.cpp).

Each definition below is a shallow embedding of one function (or one slice of
a function) of the C++ source; doc comments cite the source lines embedded.
Syscall outcomes that depend on the environment (rename, chown, chmod, fork,
cap_set_proc failing or succeeding) appear as explicit Bool parameters, paths
and names as String parameters, and effects (files moved, messages printed to
stderr, calls to exit) as fields of an outcome structure.  exit(-1), exit(1)
and exit(4) in the source are recorded as `exitCode := some (-1)` and so on;
`exitCode := none` means the function returns normally.
-/

/-- One persisted workspace record: the six YAML fields written by
WsDB::write_dbfile (wsdb.cpp lines 65-71). -/
structure WorkspaceRecord where
  workspace : String
  expiration : Int
  extensions : Int
  acctcode : String
  reminder : Int
  mailaddress : String
deriving DecidableEq, Repr

namespace WsDB

/-- The record store: filenames mapped to the record last written there.
A write prepends, and `List.lookup` finds the most recent entry, mirroring
create/overwrite of the file. -/
abbrev Store := List (String × WorkspaceRecord)

/-- Effects of WsDB::write_dbfile (wsdb.cpp lines 61-83): the updated store,
the (uid, gid) owning the record file afterwards, stderr output, and whether
the process exited.  The file is created while CAP_DAC_OVERRIDE is raised, so
before the chown it is owned by the writing identity (writerUid, writerGid);
chown to (dbuid, dbgid) may fail (`chownFails`), in which case the source
prints an error to stderr and falls through to the end of the function: the
function is void, throws nothing and never calls exit, so the caller gets no
failure indication on any path. -/
structure WriteEffects where
  store : Store
  ownerAfter : Int × Int
  logs : List String
  exitCode : Option Int
deriving DecidableEq, Repr

/-- Embedding of WsDB::write_dbfile (wsdb.cpp lines 61-83).  Builds the YAML
entry from its six field arguments, writes it to `filename`, then attempts the
chown of the file to (dbuid, dbgid). -/
def write_dbfile (st : Store) (filename wsdir : String) (expiration : Int)
    (extensions : Int) (acctcode : String) (dbuid dbgid : Int) (reminder : Int)
    (mailaddress : String) (writerUid writerGid : Int) (chownFails : Bool) :
    WriteEffects :=
  let entry : WorkspaceRecord :=
    { workspace := wsdir, expiration := expiration, extensions := extensions,
      acctcode := acctcode, reminder := reminder, mailaddress := mailaddress }
  { store := (filename, entry) :: st
    ownerAfter := if chownFails then (writerUid, writerGid) else (dbuid, dbgid)
    logs := if chownFails then ["Error: could not change owner of database entry"] else []
    exitCode := none }

/-- The values held by the caller's six variables after WsDB::read_dbfile
returns (wsdb.cpp lines 88-98). -/
structure ReadOut where
  wsdir : String
  expiration : Int
  extensions : Int
  acctcode : String
  reminder : Int
  mailaddress : String
deriving DecidableEq, Repr

/-- Embedding of WsDB::read_dbfile (wsdb.cpp lines 88-98).  `wsdir`,
`expiration`, `extensions` and `acctcode` are reference parameters in the
source and receive the stored field values; `reminder` and `mailaddress` are
declared BY VALUE in the source signature (line 89), so the assignments at
lines 96-97 update local copies and the caller's variables keep the values
`reminder0` and `mailaddress0` they held before the call.  A missing file
makes YAML::LoadFile throw (RecordNotFound), embedded as `none`. -/
def read_dbfile (st : Store) (filename : String) (reminder0 : Int)
    (mailaddress0 : String) : Option ReadOut :=
  match st.lookup filename with
  | none => none
  | some entry =>
    some { wsdir := entry.workspace, expiration := entry.expiration,
           extensions := entry.extensions, acctcode := entry.acctcode,
           reminder := reminder0, mailaddress := mailaddress0 }

end WsDB

namespace Workspace

/-- The process's effective capability set, as toggled by raise_cap and
lower_cap (the non-SETUID build, ws.cpp lines 638-692). -/
structure CapState where
  effective : List Nat
deriving DecidableEq, Repr

/-- Outcome of Workspace::lower_cap: the kernel capability state after the
call, stderr output, and whether the process aborted. -/
structure LowerOutcome where
  state : CapState
  logs : List String
  aborted : Bool
deriving DecidableEq, Repr

/-- Embedding of Workspace::lower_cap (ws.cpp lines 638-663).  cap_get_proc
copies the kernel state into `caps`; cap_set_flag clears `cap` in the copy
(`setFlagFails` models its failure, which leaves the copy unchanged and prints
an error); cap_set_proc installs the copy (`setProcFails` models its failure,
which leaves the KERNEL state unchanged and prints an error).  On every path
the function only prints and returns: there is no exit, abort or throw, so
`aborted` is false on every path — in particular after a failed lower the
process keeps whatever raised capability it had. -/
def lower_cap (st : CapState) (cap : Nat) (setFlagFails setProcFails : Bool) :
    LowerOutcome :=
  let caps := if setFlagFails then st
              else { effective := st.effective.filter (fun c => c != cap) }
  let logs1 := if setFlagFails then ["Error: problem with capabilities."] else []
  if setProcFails then
    { state := st
      logs := logs1 ++ ["Error: problem lowering capabilities."]
      aborted := false }
  else
    { state := caps, logs := logs1, aborted := false }

/-- Embedding of the db-entry filename composed by Workspace::allocate on the
non-(extensionflag with user option) path (ws.cpp lines 158-164): when a user
option is given and the caller is root (getuid() == 0) the record name uses
the named user, otherwise it uses the caller's own username. -/
def allocate_dbfilename (dbdir username user_option name : String) (uid : Nat) :
    String :=
  if 0 < user_option.length ∧ uid = 0 then
    dbdir ++ "/" ++ user_option ++ "-" ++ name
  else
    dbdir ++ "/" ++ username ++ "-" ++ name

/-- Embedding of the workspace directory path composed by Workspace::allocate
when the record is absent (ws.cpp lines 209-215).  `ridx` stands for the
rand() value; the source indexes `spaces[rand() % spaces.size()]`.  The
source's condition is `user_option.length() > 0 && user_option != username &&
getuid() != 0`: in its then-branch the owner component is `username`, and in
its else-branch (commented in the source as the root case, but also taken
whenever user_option is empty) the owner component is `user_option`. -/
def allocate_wsdir (spaces : List String) (ridx : Nat)
    (pfx username user_option name : String) (uid : Nat) : String :=
  if 0 < user_option.length ∧ user_option ≠ username ∧ uid ≠ 0 then
    (spaces.getD (ridx % spaces.length) "") ++ pfx ++ "/" ++ username ++ "-" ++ name
  else
    (spaces.getD (ridx % spaces.length) "") ++ pfx ++ "/" ++ user_option ++ "-" ++ name

/-- A YAML-ish per-filesystem node carrying the two default lists read by
Workspace::validate (ws.cpp lines 384 and 388). -/
structure FsDefaults where
  groupdefault : List String
  userdefault : List String
deriving DecidableEq, Repr

/-- The top level of the parsed /etc/ws.conf mapping: each top-level key
(such as "workspaces") maps to a mapping from filesystem name to its node.
Indexing a missing key gives `none`, matching yaml-cpp where indexing an
absent key yields an undefined node whose `.as<...>()` throws (the source
catches the throw and moves on). -/
abbrev TopConf := List (String × List (String × FsDefaults))

/-- Embedding of the two default maps built by Workspace::validate (ws.cpp
lines 380-391): it iterates the filesystem names under the key "workspaces",
but reads each filesystem's groupdefault/userdefault lists from the key
"workspaces." (with a trailing dot, exactly as written at source lines 384
and 388); a failed lookup throws inside the try block and contributes
nothing.  Returns (groups_defaults, user_defaults) as association lists from
user/group name to filesystem name. -/
def build_defaults (top : TopConf) :
    List (String × String) × List (String × String) :=
  let wsNames := ((top.lookup "workspaces").getD []).map Prod.fst
  wsNames.foldl
    (fun acc v =>
      match (top.lookup "workspaces.").bind (fun m => m.lookup v) with
      | some nd =>
          (acc.1 ++ nd.groupdefault.map (fun u => (u, v)),
           acc.2 ++ nd.userdefault.map (fun u => (u, v)))
      | none => acc)
    ([], [])

/-- Embedding of the filesystem resolution in Workspace::validate when no
filesystem was requested explicitly (ws.cpp lines 378-409): first a per-user
default for `username`, then a per-group default for `primarygroup`, then a
per-group default for any secondary group in `groupnames` order, else the
global default `config["default"]`. -/
def resolve_filesystem (top : TopConf) (defaultFs username primarygroup : String)
    (groupnames : List String) : String :=
  let defaults := build_defaults top
  match defaults.2.lookup username with
  | some fsys => fsys
  | none =>
    match defaults.1.lookup primarygroup with
    | some fsys => fsys
    | none =>
      match groupnames.findSome? (fun g => defaults.1.lookup g) with
      | some fsys => fsys
      | none => defaultFs

/-- Embedding of the layered config lookup used for both the duration and the
maxextensions ceilings in Workspace::validate (ws.cpp lines 414-423 and
432-441): per-user exception, else per-filesystem value, else global value. -/
def config_value (userException fsValue : Option Int) (globalValue : Int) : Int :=
  match userException with
  | some v => v
  | none =>
    match fsValue with
    | some v => v
    | none => globalValue

/-- Outcome of the WS_Allocate limit checks in Workspace::validate. -/
structure LimitsOutcome where
  duration : Int
  maxextensions : Int
  logs : List String
  exitCode : Option Int
deriving DecidableEq, Repr

/-- Embedding of the WS_Allocate branch of Workspace::validate (ws.cpp lines
412-441).  `requested` is opt["duration"]; the clamp at lines 426-430 fires
only for a non-root caller whose request exceeds the resolved ceiling, prints
two lines to stderr and continues (no exit on any path of this branch). -/
def validateLimits (uid : Nat) (requested : Int)
    (durUserException durFs : Option Int) (durGlobal : Int)
    (extUserException extFs : Option Int) (extGlobal : Int) : LimitsOutcome :=
  let configduration := config_value durUserException durFs durGlobal
  if uid ≠ 0 ∧ requested > configduration then
    { duration := configduration
      maxextensions := config_value extUserException extFs extGlobal
      logs := ["Error: Duration longer than allowed for this workspace",
               "       setting to allowed maximum of " ++ toString configduration]
      exitCode := none }
  else
    { duration := requested
      maxextensions := config_value extUserException extFs extGlobal
      logs := []
      exitCode := none }

/-- Outcome of Workspace::release: the trash target computed for the record
file and the one computed for the workspace directory (`none` when that move
was never reached), whether each move was attempted, whether the mv fallback
ran, stderr output, and the exit code. -/
structure ReleaseOutcome where
  dbMoveTarget : Option String
  dbMoved : Bool
  wsMoveAttempted : Bool
  wsMoveTarget : Option String
  mvCalled : Bool
  logs : List String
  exitCode : Option Int
deriving DecidableEq, Repr

/-- Embedding of Workspace::release (ws.cpp lines 260-314).  `dbParent` is
the parent directory of the record file, `wsParent` the parent of the
workspace directory (taken from the record), `deleted` the configured trash
subdirectory name, `timestamp` the time(NULL) value formatted into the tag.
`renameDbOk` and `renameWsOk` model the two rename(2) calls, `mvRet` the
return value of the mv fallback.  The record rename happens first; its
failure exits -1 before the directory move is reached.  Both targets append
the same `username-name-timestamp` tag.  A failed directory rename falls back
to mv; a nonzero mv return exits -1. -/
def release (recordExists : Bool) (dbParent deleted username name : String)
    (timestamp : Nat) (wsParent : String) (renameDbOk renameWsOk : Bool)
    (mvRet : Int) : ReleaseOutcome :=
  if recordExists then
    let tag := username ++ "-" ++ name ++ "-" ++ toString timestamp
    let dbtargetname := dbParent ++ "/" ++ deleted ++ "/" ++ tag
    if renameDbOk then
      let wstargetname := wsParent ++ "/" ++ deleted ++ "/" ++ tag
      if renameWsOk then
        { dbMoveTarget := some dbtargetname, dbMoved := true,
          wsMoveAttempted := true, wsMoveTarget := some wstargetname,
          mvCalled := false, logs := [], exitCode := none }
      else if mvRet = 0 then
        { dbMoveTarget := some dbtargetname, dbMoved := true,
          wsMoveAttempted := true, wsMoveTarget := some wstargetname,
          mvCalled := true, logs := [], exitCode := none }
      else
        { dbMoveTarget := some dbtargetname, dbMoved := true,
          wsMoveAttempted := true, wsMoveTarget := some wstargetname,
          mvCalled := true, logs := ["Error: could not remove workspace!"],
          exitCode := some (-1) }
    else
      { dbMoveTarget := some dbtargetname, dbMoved := false,
        wsMoveAttempted := false, wsMoveTarget := none, mvCalled := false,
        logs := ["Error: database entry could not be deleted."],
        exitCode := some (-1) }
  else
    { dbMoveTarget := none, dbMoved := false, wsMoveAttempted := false,
      wsMoveTarget := none, mvCalled := false,
      logs := ["Error: workspace does not exist!"], exitCode := some (-1) }

/-- Outcome of Workspace::restore. -/
structure RestoreOutcome where
  mvCalled : Bool
  unlinkCalled : Bool
  logs : List String
  exitCode : Option Int
deriving DecidableEq, Repr

/-- Embedding of Workspace::restore (ws.cpp lines 528-565).  The target live
record is checked first: if absent, the source prints an error and calls
exit(1).  Only then is the trashed record checked: if absent, the source
prints "Error: workspace does not exist." and merely falls off the end of the
function — there is no exit call on that branch.  When both exist, the
trashed directory is moved into the target (mv) and the trashed record is
unlinked. -/
def restore (targetExists trashedExists : Bool) : RestoreOutcome :=
  if targetExists then
    if trashedExists then
      { mvCalled := true, unlinkCalled := true, logs := [], exitCode := none }
    else
      { mvCalled := false, unlinkCalled := false,
        logs := ["Error: workspace does not exist."], exitCode := none }
  else
    { mvCalled := false, unlinkCalled := false,
      logs := ["Error: target workspace does not exist!"], exitCode := some 1 }

/-- Outcome of Workspace::mv as seen by the calling (parent) process. -/
structure MvOutcome where
  ret : Int
  childSpawned : Bool
deriving DecidableEq, Repr

/-- Embedding of Workspace::mv (ws.cpp lines 450-463), from the parent
process's point of view (the pid == 0 branch runs only inside the forked
child).  When fork succeeds the parent waits and returns
WEXITSTATUS(status) = (status / 256) % 256 of the raw wait status.  When fork
fails (pid < 0) the source's branch is EMPTY and control falls through to the
final `return 0`: no child was spawned, nothing was moved, yet the success
code 0 is returned. -/
def mv (forkFails : Bool) (waitStatus : Nat) : MvOutcome :=
  if forkFails then
    { ret := 0, childSpawned := false }
  else
    { ret := Int.ofNat ((waitStatus / 256) % 256), childSpawned := true }

/-- A filesystem node kind, used to give unlink(2) its real semantics. -/
inductive FsNode
| file
| dir
deriving DecidableEq, Repr

/-- A fragment of the filesystem namespace: paths mapped to node kinds. -/
abbrev Fsys := List (String × FsNode)

/-- Embedding of the unlink(2) syscall: it removes a name referring to a
FILE; on Linux it always fails with EISDIR when the path names a directory,
leaving the directory in place (the source ignores unlink's return value). -/
def unlinkSys (fsys : Fsys) (p : String) : Fsys :=
  match fsys.lookup p with
  | some FsNode.file => fsys.filter (fun e => e.1 != p)
  | _ => fsys

/-- Outcome of the creation path of Workspace::allocate. -/
structure AllocateCreateOutcome where
  fsys : Fsys
  recordWritten : Bool
  logs : List String
  exitCode : Option Int
deriving DecidableEq, Repr

/-- Embedding of the directory-preparation steps of the creation path of
Workspace::allocate (ws.cpp lines 217-248).  `mkdirOk`, `chownOk` and
`chmodOk` model fs::create_directories, chown and chmod.  After a chown or
chmod failure the source prints an error, calls unlink(wsdir) — whose return
value it ignores — and exits -1; `wsdir` is the directory just created, so
the unlink fails and the directory persists (see `unlinkSys`).  Only when all
three steps succeed is the record written (line 248). -/
def allocate_create (fsys : Fsys) (wsdir : String) (mkdirOk chownOk chmodOk : Bool) :
    AllocateCreateOutcome :=
  if mkdirOk then
    let fsys1 := (wsdir, FsNode.dir) :: fsys
    if chownOk then
      if chmodOk then
        { fsys := fsys1, recordWritten := true, logs := [], exitCode := none }
      else
        { fsys := unlinkSys fsys1 wsdir, recordWritten := false,
          logs := ["Error: could not change permissions of workspace!"],
          exitCode := some (-1) }
    else
      { fsys := unlinkSys fsys1 wsdir, recordWritten := false,
        logs := ["Error: could not change owner of workspace!"],
        exitCode := some (-1) }
  else
    { fsys := fsys, recordWritten := false,
      logs := ["Error: could not create workspace directory!"],
      exitCode := some (-1) }

end Workspace

/-- C1: on the creation path of Workspace::allocate the code composes the
directory path as space + prefix + "/" + owner + "-" + name, but the owner
component in the branch taken by an unprivileged caller without a -u option
is `user_option`, which is then EMPTY: user alice allocating "proj" on space
"/scratch/a" gets a directory whose final path component is "-proj" (empty
owner) instead of the "alice-proj" the claim states, while the db record file
for the same call is named "alice-proj" under the database directory — the
record and the directory disagree about the owner component. -/
theorem allocate_wsdir_owner_component_empty :
  Workspace.allocate_wsdir ["/scratch/a"] 0 "" "alice" "" "proj" 1000
      = "/scratch/a/-proj" ∧
  Workspace.allocate_wsdir ["/scratch/a"] 0 "" "alice" "" "proj" 1000
      ≠ "/scratch/a/alice-proj" ∧
  Workspace.allocate_dbfilename "/db" "alice" "" "proj" 1000 = "/db/alice-proj" := by
  decide

/-- C2 counterexample: with capability 0 raised, a lower whose cap_set_proc
syscall fails (setProcFails = true) does NOT abort (aborted = false) and
leaves the kernel capability state unchanged, so execution continues holding
the raised capability — refuting the claim that a failed lower is fatal and
that execution never proceeds with more privilege than the fallback
identity. -/
theorem lower_cap_failed_syscall_continues_privileged :
  (Workspace.lower_cap ⟨[0]⟩ 0 false true).aborted = false ∧
  (Workspace.lower_cap ⟨[0]⟩ 0 false true).state = ⟨[0]⟩ := by
  decide

/-- C2 amended: Workspace::lower_cap never aborts on any path; when the
privilege-lowering syscall fails it prints "Error: problem lowering
capabilities." to stderr and returns normally with the kernel capability
state unchanged, so the process may continue holding the raised privilege. -/
theorem lower_cap_never_aborts :
  ∀ (st : Workspace.CapState) (cap : Nat) (f1 f2 : Bool),
    (Workspace.lower_cap st cap f1 f2).aborted = false ∧
    (Workspace.lower_cap st cap f1 true).state = st ∧
    "Error: problem lowering capabilities." ∈ (Workspace.lower_cap st cap f1 true).logs := by
  intro st cap f1 f2
  refine ⟨?_, ?_, ?_⟩ <;> cases f1 <;> cases f2 <;>
    simp [Workspace.lower_cap]

/-- C3: writing a record whose reminder is 7 and whose mailaddress is
"alice@example.com" and reading the same path back returns the four
reference-parameter fields intact, but the caller's reminder and mailaddress
variables keep their prior values 0 and "" because read_dbfile declares those
two parameters by value — the round trip does NOT yield identical values for
all six fields to the caller. -/
theorem wsdb_roundtrip_loses_value_params :
  WsDB.read_dbfile
      (WsDB.write_dbfile [] "/db/alice-proj" "/scratch/a/alice-proj" 1735689600 3
        "acct" 20 21 7 "alice@example.com" 0 0 false).store
      "/db/alice-proj" 0 ""
    = some { wsdir := "/scratch/a/alice-proj", expiration := 1735689600,
             extensions := 3, acctcode := "acct", reminder := 0,
             mailaddress := "" } ∧
  (WsDB.read_dbfile
      (WsDB.write_dbfile [] "/db/alice-proj" "/scratch/a/alice-proj" 1735689600 3
        "acct" 20 21 7 "alice@example.com" 0 0 false).store
      "/db/alice-proj" 0 "").map WsDB.ReadOut.reminder ≠ some 7 ∧
  (WsDB.read_dbfile
      (WsDB.write_dbfile [] "/db/alice-proj" "/scratch/a/alice-proj" 1735689600 3
        "acct" 20 21 7 "alice@example.com" 0 0 false).store
      "/db/alice-proj" 0 "").map WsDB.ReadOut.mailaddress
    ≠ some "alice@example.com" := by
  decide

/-- C4: with a user default (alice -> fs1), a group default (grp -> fs1) and
a global default fs0 all configured under the top-level key "workspaces",
Workspace::validate still resolves user alice (primary group grp) to the
GLOBAL default fs0, because the defaults maps are populated from the
misspelled top-level key "workspaces." (trailing dot) and therefore stay
empty; placing the same mapping under the key "workspaces." as well makes the
user default win, confirming the misspelled lookup is the cause. -/
theorem resolve_filesystem_defaults_never_apply :
  Workspace.resolve_filesystem
      [("workspaces", [("fs1", { groupdefault := ["grp"], userdefault := ["alice"] })])]
      "fs0" "alice" "grp" ["grp"] = "fs0" ∧
  Workspace.resolve_filesystem
      [("workspaces", [("fs1", { groupdefault := ["grp"], userdefault := ["alice"] })])]
      "fs0" "alice" "grp" ["grp"] ≠ "fs1" ∧
  Workspace.resolve_filesystem
      [("workspaces", [("fs1", { groupdefault := ["grp"], userdefault := ["alice"] })]),
       ("workspaces.", [("fs1", { groupdefault := ["grp"], userdefault := ["alice"] })])]
      "fs0" "alice" "grp" ["grp"] = "fs1" := by
  decide

/-- C5 counterexample: a write_dbfile call whose chown fails (writer identity
(0, 0), system account (20, 21)) returns normally with no exit, leaves the
record file owned by the writer rather than the system account, leaves the
record present in the store, and only prints an error to stderr — the caller
receives no failure indication, refuting the claim that the write is reported
to the caller as failed. -/
theorem write_dbfile_chown_failure_unreported :
  (WsDB.write_dbfile [] "/db/alice-proj" "/scratch/a/alice-proj" 1735689600 3
      "acct" 20 21 7 "alice@example.com" 0 0 true).exitCode = none ∧
  (WsDB.write_dbfile [] "/db/alice-proj" "/scratch/a/alice-proj" 1735689600 3
      "acct" 20 21 7 "alice@example.com" 0 0 true).ownerAfter = (0, 0) ∧
  (WsDB.write_dbfile [] "/db/alice-proj" "/scratch/a/alice-proj" 1735689600 3
      "acct" 20 21 7 "alice@example.com" 0 0 true).ownerAfter ≠ (20, 21) ∧
  (WsDB.write_dbfile [] "/db/alice-proj" "/scratch/a/alice-proj" 1735689600 3
      "acct" 20 21 7 "alice@example.com" 0 0 true).logs
    = ["Error: could not change owner of database entry"] ∧
  ((WsDB.write_dbfile [] "/db/alice-proj" "/scratch/a/alice-proj" 1735689600 3
      "acct" 20 21 7 "alice@example.com" 0 0 true).store.lookup "/db/alice-proj").isSome
    = true := by
  decide

/-- C5 amended: when the chown of the record file fails, WsDB::write_dbfile
prints "Error: could not change owner of database entry" to stderr and
returns normally: the caller gets no failure indication (no exit, no thrown
error), the record stays written in place, and the file remains owned by the
writing identity — the mis-ownership is logged rather than silent, but the
caller proceeds to treat the record as committed. -/
theorem write_dbfile_chown_failure_logs_and_returns :
  ∀ (st : WsDB.Store) (fn wsdir : String) (expiration : Int) (extensions : Int)
    (acct : String) (dbuid dbgid rem : Int) (mail : String) (wuid wgid : Int),
    (WsDB.write_dbfile st fn wsdir expiration extensions acct dbuid dbgid rem mail
        wuid wgid true).exitCode = none ∧
    (WsDB.write_dbfile st fn wsdir expiration extensions acct dbuid dbgid rem mail
        wuid wgid true).ownerAfter = (wuid, wgid) ∧
    (WsDB.write_dbfile st fn wsdir expiration extensions acct dbuid dbgid rem mail
        wuid wgid true).logs = ["Error: could not change owner of database entry"] ∧
    (WsDB.write_dbfile st fn wsdir expiration extensions acct dbuid dbgid rem mail
        wuid wgid true).store
      = (fn, { workspace := wsdir, expiration := expiration,
               extensions := extensions, acctcode := acct, reminder := rem,
               mailaddress := mail }) :: st := by
  intro st fn wsdir expiration extensions acct dbuid dbgid rem mail wuid wgid
  refine ⟨rfl, rfl, rfl, rfl⟩

/-- C6: in Workspace::validate the duration ceiling and the extension ceiling
each resolve with precedence per-user exception over per-filesystem value
over global default; the resulting duration equals the request unless the
caller is unprivileged (uid nonzero) and requested more than the ceiling, in
which case it is clamped down to the ceiling (so it is never raised above the
request), a root caller (uid 0) always keeps the requested duration, no path
of this branch exits, and the two stderr lines are printed exactly when the
clamp fires. -/
theorem validate_limits_precedence_and_clamp :
  ∀ (uid : Nat) (req : Int) (du fo : Option Int) (g : Int) (eu ef : Option Int)
    (eg u f : Int),
    Workspace.config_value (some u) fo g = u ∧
    Workspace.config_value none (some f) g = f ∧
    Workspace.config_value none none g = g ∧
    (Workspace.validateLimits uid req du fo g eu ef eg).maxextensions
      = Workspace.config_value eu ef eg ∧
    (Workspace.validateLimits uid req du fo g eu ef eg).duration
      = (if uid ≠ 0 ∧ req > Workspace.config_value du fo g
         then Workspace.config_value du fo g else req) ∧
    (Workspace.validateLimits uid req du fo g eu ef eg).duration ≤ req ∧
    (Workspace.validateLimits 0 req du fo g eu ef eg).duration = req ∧
    (Workspace.validateLimits uid req du fo g eu ef eg).exitCode = none ∧
    (Workspace.validateLimits uid req du fo g eu ef eg).logs
      = (if uid ≠ 0 ∧ req > Workspace.config_value du fo g
         then ["Error: Duration longer than allowed for this workspace",
               "       setting to allowed maximum of "
                 ++ toString (Workspace.config_value du fo g)]
         else []) := by
  intro uid req du fo g eu ef eg u f
  refine ⟨rfl, rfl, rfl, ?_, ?_, ?_, ?_, ?_, ?_⟩
  · by_cases h : uid ≠ 0 ∧ req > Workspace.config_value du fo g <;>
      simp [Workspace.validateLimits, h]
  · by_cases h : uid ≠ 0 ∧ req > Workspace.config_value du fo g <;>
      simp [Workspace.validateLimits, h]
  · by_cases h : uid ≠ 0 ∧ req > Workspace.config_value du fo g
    · have hd : (Workspace.validateLimits uid req du fo g eu ef eg).duration
          = Workspace.config_value du fo g := by
        simp [Workspace.validateLimits, h]
      rw [hd]
      exact le_of_lt h.2
    · have hd : (Workspace.validateLimits uid req du fo g eu ef eg).duration = req := by
        simp [Workspace.validateLimits, h]
      rw [hd]
  · simp [Workspace.validateLimits]
  · by_cases h : uid ≠ 0 ∧ req > Workspace.config_value du fo g <;>
      simp [Workspace.validateLimits, h]
  · by_cases h : uid ≠ 0 ∧ req > Workspace.config_value du fo g <;>
      simp [Workspace.validateLimits, h]

/-- C7: when the record exists, Workspace::release first renames the record
file into the trash under the tag username-name-timestamp; if that rename
fails it prints an error and exits -1 without ever attempting the directory
move (and without calling the mv fallback); when the record rename succeeds,
the directory move target carries the SAME tag built from the same timestamp,
a failed directory rename falls back to the external mv, and a nonzero mv
return exits -1 while a zero return is treated as success. -/
theorem release_record_first_same_tag :
  ∀ (dbP del u n : String) (ts : Nat) (wsP : String) (rws : Bool) (mvr : Int),
    (Workspace.release true dbP del u n ts wsP false rws mvr).exitCode = some (-1) ∧
    (Workspace.release true dbP del u n ts wsP false rws mvr).wsMoveAttempted = false ∧
    (Workspace.release true dbP del u n ts wsP false rws mvr).mvCalled = false ∧
    (Workspace.release true dbP del u n ts wsP false rws mvr).wsMoveTarget = none ∧
    (Workspace.release true dbP del u n ts wsP true rws mvr).dbMoveTarget
      = some (dbP ++ "/" ++ del ++ "/" ++ (u ++ "-" ++ n ++ "-" ++ toString ts)) ∧
    (Workspace.release true dbP del u n ts wsP true rws mvr).wsMoveTarget
      = some (wsP ++ "/" ++ del ++ "/" ++ (u ++ "-" ++ n ++ "-" ++ toString ts)) ∧
    (Workspace.release true dbP del u n ts wsP true false mvr).mvCalled = true ∧
    (Workspace.release true dbP del u n ts wsP true false mvr).exitCode
      = (if mvr = 0 then none else some (-1)) := by
  intro dbP del u n ts wsP rws mvr
  refine ⟨?_, ?_, ?_, ?_, ?_, ?_, ?_, ?_⟩ <;>
    cases rws <;> by_cases h : mvr = 0 <;>
      simp [Workspace.release, h]

/-- C8: Workspace::restore with a missing target live record prints an error
and exits 1 without mutating anything; but with an existing target and a
MISSING trashed record it prints "Error: workspace does not exist." and
returns with exit code unset (none) — the function performs no mutation but
also never calls exit, so the claimed non-zero exit does not happen. -/
theorem restore_missing_record_no_exit :
  (Workspace.restore false true).exitCode = some 1 ∧
  (Workspace.restore false true).mvCalled = false ∧
  (Workspace.restore false true).unlinkCalled = false ∧
  (Workspace.restore true false).exitCode = none ∧
  (Workspace.restore true false).mvCalled = false ∧
  (Workspace.restore true false).unlinkCalled = false ∧
  (Workspace.restore true false).logs = ["Error: workspace does not exist."] := by
  decide

/-- C9: when the chown (or the chmod) of the newly created workspace
directory fails, Workspace::allocate does abort with exit -1 and writes no
record, but its rollback calls unlink(2) on the just-created DIRECTORY, which
fails and is ignored, so the directory is still present afterwards — the
claimed removal of the just-created directory does not happen. -/
theorem allocate_rollback_leaves_directory :
  (Workspace.allocate_create [] "/scratch/a/alice-proj" true false true).exitCode
      = some (-1) ∧
  (Workspace.allocate_create [] "/scratch/a/alice-proj" true false true).fsys.lookup
      "/scratch/a/alice-proj" = some Workspace.FsNode.dir ∧
  (Workspace.allocate_create [] "/scratch/a/alice-proj" true false true).recordWritten
      = false ∧
  (Workspace.allocate_create [] "/scratch/a/alice-proj" true true false).exitCode
      = some (-1) ∧
  (Workspace.allocate_create [] "/scratch/a/alice-proj" true true false).fsys.lookup
      "/scratch/a/alice-proj" = some Workspace.FsNode.dir ∧
  (Workspace.allocate_create [] "/scratch/a/alice-proj" true true false).recordWritten
      = false := by
  decide

/-- C10: when fork fails, Workspace::mv spawns no child and nothing is moved,
yet it returns the success code 0 because the pid < 0 branch is empty and
control falls through to the final return 0; a release whose directory rename
failed and which then relies on that mv return value finishes with no error
exit, reporting success although the directory was never moved (for contrast,
a successful fork whose child exits with status 1 makes mv return 1). -/
theorem mv_fork_failure_reports_success :
  (Workspace.mv true 77).ret = 0 ∧
  (Workspace.mv true 77).childSpawned = false ∧
  (Workspace.mv false 256).ret = 1 ∧
  (Workspace.release true "/ws.d" "deleted" "alice" "proj" 1735689600 "/scratch/a"
      true false (Workspace.mv true 77).ret).exitCode = none := by
  decide
